import Mathlib

/-!
Verification of the jeremym-fastapi-example service against its
specification. The embedding models the three handlers in
src/jeremymfastapiexample/handlers/external.py (get_index, get_greeting,
fetch_data, get_schema) and the configuration in
src/jeremymfastapiexample/config.py. External library calls
(yaml.safe_load, felis.datamodel.Schema construction, the network) are
parameters of the handler functions, since the handlers only invoke them;
the handlers' own control flow is translated literally from the source.
-/

namespace JeremymFastapiExample

/-- Generic JSON values, the common target of YAML parsing
(yaml.safe_load returns a generic nested structure) and of FastAPI's
response serialization. -/
inductive Json where
  | null : Json
  | bool (b : Bool) : Json
  | num (n : Int) : Json
  | str (s : String) : Json
  | arr (items : List Json) : Json
  | obj (fields : List (String × Json)) : Json

mutual

/-- Serialize a JSON value to its byte string, the body FastAPI sends. -/
def jsonToString : Json → String
  | .null => "null"
  | .bool true => "true"
  | .bool false => "false"
  | .num n => toString n
  | .str s => "\x22" ++ s ++ "\x22"
  | .arr items => "[" ++ jsonArrToString items ++ "]"
  | .obj fields => "\x7b" ++ jsonObjToString fields ++ "\x7d"

/-- Comma-separated serialization of a JSON array's items. -/
def jsonArrToString : List Json → String
  | [] => ""
  | [x] => jsonToString x
  | x :: xs => jsonToString x ++ "," ++ jsonArrToString xs

/-- Comma-separated serialization of a JSON object's key-value pairs. -/
def jsonObjToString : List (String × Json) → String
  | [] => ""
  | [(k, v)] => "\x22" ++ k ++ "\x22:" ++ jsonToString v
  | (k, v) :: xs =>
      "\x22" ++ k ++ "\x22:" ++ jsonToString v ++ "," ++ jsonObjToString xs

end

/-- A validated pydantic model (such as a felis Schema) as FastAPI sees it
for serialization: named fields, each either set to a JSON value or unset
(None). -/
structure PydanticModel where
  fields : List (String × Option Json)

/-- FastAPI serialization of a response model. With
response_model_exclude_none set on the route, unset (None) fields are
omitted; otherwise (the default) every field appears, unset ones as
null. -/
def serializeModel (excludeNone : Bool) (m : PydanticModel) : Json :=
  if excludeNone then
    Json.obj (m.fields.filterMap (fun p => p.2.map (fun v => (p.1, v))))
  else
    Json.obj (m.fields.map (fun p => (p.1, p.2.getD Json.null)))

/-- Result of one outbound HTTP GET: either httpx raises a RequestError
(DNS failure, connection refused, timeout), or a response arrives with a
status code and a body text. -/
inductive TransportResult where
  | requestError (message : String) : TransportResult
  | response (status_code : Nat) (text : String) : TransportResult
deriving Repr, DecidableEq

/-- The network as the handler sees it: what an HTTP GET of each URL
yields during this request. -/
def Network : Type := String → TransportResult

/-- Outcome of running a handler body: a returned value, a raised
fastapi.HTTPException carrying a status code and a detail message, or any
other exception escaping the handler uncaught. -/
inductive Outcome (α : Type) where
  | ok (value : α) : Outcome α
  | httpException (status_code : Nat) (detail : String) : Outcome α
  | uncaught (error : String) : Outcome α

/-- The external libraries get_schema calls: yaml.safe_load (raising
yaml.YAMLError on malformed input, modelled as the error case) and the
felis Schema constructor Schema(**data) (raising pydantic.ValidationError
on missing or malformed fields, modelled as the error case carrying the
message naming them). -/
structure PyLibs where
  safe_load : String → Except String Json
  schema_of_data : Json → Except String PydanticModel

/-- The URL built by get_schema, external.py line 87: the f-string
substitutes name unmodified into the fixed template. -/
def schema_url (name : String) : String :=
  "https://raw.githubusercontent.com/lsst/sdm_schemas/main/yml/" ++ name ++ ".yaml"

/-- get_schema, external.py lines 81-96: build the URL from name, GET it;
on httpx.RequestError raise HTTPException(404, "URL not found\n" + url);
otherwise parse the body with yaml.safe_load (uncaught on failure) and
construct Schema(**data) (uncaught on failure), returning the schema. The
remote status code is never inspected. -/
def get_schema (libs : PyLibs) (name : String) (net : Network) : Outcome PydanticModel :=
  match net (schema_url name) with
  | .requestError _ =>
      .httpException 404 ("URL not found\n" ++ schema_url name)
  | .response _status_code text =>
      match libs.safe_load text with
      | .error e => .uncaught ("yaml.YAMLError: " ++ e)
      | .ok data =>
          match libs.schema_of_data data with
          | .error e => .uncaught ("pydantic.ValidationError: " ++ e)
          | .ok s => .ok s

/-- fetch_data, external.py lines 65-73: GET the given URL with a fresh
client; on httpx.RequestError raise HTTPException(200, "URL not
found\n" + url); otherwise return the response text. -/
def fetch_data (net : Network) (schema_url : String) : Outcome String :=
  match net schema_url with
  | .requestError _ =>
      .httpException 200 ("URL not found\n" ++ schema_url)
  | .response _status_code text => .ok text

/-- get_greeting, external.py lines 60-62. -/
def get_greeting : String := "Hello, SQuaRE Services Bootcamp!"

/-- The index route sets response_model_exclude_none=True
(external.py line 31). -/
def index_route_exclude_none : Bool := true

/-- The schema route decorator (external.py lines 76-80) sets no
response_model_exclude_none, so FastAPI's default False applies. -/
def schema_route_exclude_none : Bool := false

/-- An HTTP response as sent to the caller. -/
structure HttpResponse where
  status_code : Nat
  body : String
deriving Repr, DecidableEq

/-- Modelled from the spec and FastAPI's documented behavior (the
framework code is not part of this repository): a returned model is
serialized with the route's exclude-none setting under status 200; a
raised HTTPException becomes a JSON body with a detail field under its
status code; any other exception escapes to the server's default handler,
a plain 500 Internal Server Error. -/
def render (excludeNone : Bool) : Outcome PydanticModel → HttpResponse
  | .ok m => ⟨200, jsonToString (serializeModel excludeNone m)⟩
  | .httpException s d => ⟨s, jsonToString (Json.obj [("detail", Json.str d)])⟩
  | .uncaught _ => ⟨500, "Internal Server Error"⟩

/-- The full /schema route: run get_schema, render its outcome with the
schema route's serialization settings. -/
def schema_route (libs : PyLibs) (name : String) (net : Network) : HttpResponse :=
  render schema_route_exclude_none (get_schema libs name net)

/-- Status carried by a raised HTTPException, if the outcome is one. -/
def Outcome.exnStatus {α : Type} : Outcome α → Option Nat
  | .httpException s _ => some s
  | _ => none

/-- Configuration for jeremym-fastapi-example, config.py lines 12-31: four
pydantic-settings fields with defaults, populated from the environment
under the prefix JEREMYM_FASTAPI_EXAMPLE_. Profile and log level are kept
as their string spellings. -/
structure Config where
  name : String
  path_prefix : String
  profile : String
  log_level : String
deriving Repr, DecidableEq

/-- Environment-based settings loading as pydantic BaseSettings performs
it for Config: each field takes the environment variable named by the
prefixed field name when set, and its declared default otherwise
(config.py lines 15-31). -/
def loadConfig (env : String → Option String) : Config :=
  { name := (env "JEREMYM_FASTAPI_EXAMPLE_NAME").getD "jeremym-fastapi-example",
    path_prefix :=
      (env "JEREMYM_FASTAPI_EXAMPLE_PATH_PREFIX").getD "/jeremym-fastapi-example",
    profile := (env "JEREMYM_FASTAPI_EXAMPLE_PROFILE").getD "development",
    log_level := (env "JEREMYM_FASTAPI_EXAMPLE_LOG_LEVEL").getD "INFO" }

/-- Application metadata as served by the index route: the application
name plus four strings taken from package build information. -/
structure Metadata where
  name : String
  version : String
  description : String
  repository_url : String
  documentation_url : String
deriving Repr, DecidableEq

/-- Static package build information the metadata is derived from. -/
structure PackageInfo where
  version : String
  description : String
  repository_url : String
  documentation_url : String
deriving Repr, DecidableEq

/-- Modelled from the spec: safir.metadata.get_metadata (an external
dependency, not part of this repository's sources) constructs the
Application Metadata record once from static package information, with
name set to the configured application name and version, description,
repository URL and documentation URL taken from the package. -/
def get_metadata (application_name : String) (pkg : PackageInfo) : Metadata :=
  { name := application_name,
    version := pkg.version,
    description := pkg.description,
    repository_url := pkg.repository_url,
    documentation_url := pkg.documentation_url }

/-- Index response model, models.py: a single field metadata. -/
structure Index where
  metadata : Metadata
deriving Repr, DecidableEq

/-- get_index, external.py lines 34-57: log, build the metadata from the
package information and the configured application name, and return it
wrapped in Index. No branch can fail. -/
def get_index (cfg : Config) (pkg : PackageInfo) : Outcome Index :=
  .ok { metadata := get_metadata cfg.name pkg }

/-- The five metadata attributes as the pydantic model FastAPI
serializes, every field set. -/
def metadataModel (m : Metadata) : PydanticModel :=
  { fields :=
      [("name", some (Json.str m.name)),
       ("version", some (Json.str m.version)),
       ("description", some (Json.str m.description)),
       ("repository_url", some (Json.str m.repository_url)),
       ("documentation_url", some (Json.str m.documentation_url))] }

/-- The Index model serialized as JSON: one field metadata, rendered with
the index route's response_model_exclude_none=True setting. -/
def indexJson (i : Index) : Json :=
  Json.obj [("metadata", serializeModel index_route_exclude_none (metadataModel i.metadata))]

/-- The full / route: run get_index and render its returned Index. -/
def index_route (cfg : Config) (pkg : PackageInfo) : HttpResponse :=
  match get_index cfg pkg with
  | .ok i => ⟨200, jsonToString (indexJson i)⟩
  | .httpException s d => ⟨s, jsonToString (Json.obj [("detail", Json.str d)])⟩
  | .uncaught _ => ⟨500, "Internal Server Error"⟩

/-! Concrete instances used to exercise the handlers. -/

/-- A network on which every GET fails at the transport level. -/
def downNet : Network := fun _ => .requestError "connection refused"

/-- A network serving the document "name: ex" with status 200 at every
URL. -/
def exNet : Network := fun _ => .response 200 "name: ex"

/-- A network serving the text ":" (not valid YAML here) with status
200. -/
def badYamlNet : Network := fun _ => .response 200 ":"

/-- A network serving the document "id: 3" (valid YAML, not a valid
schema) with status 200. -/
def idNet : Network := fun _ => .response 200 "id: 3"

/-- Concrete libraries for the examples: a YAML parser knowing the two
documents "name: ex" and "id: 3" and rejecting everything else, and a
schema validator accepting exactly single-key name mappings, producing a
schema whose optional description field is unset. -/
def exLibs : PyLibs :=
  { safe_load := fun text =>
      if text = "name: ex" then .ok (Json.obj [("name", Json.str "ex")])
      else if text = "id: 3" then .ok (Json.obj [("id", Json.num 3)])
      else .error "could not determine a constructor for the node",
    schema_of_data := fun data =>
      match data with
      | Json.obj [("name", Json.str s)] =>
          .ok { fields := [("name", some (Json.str s)), ("description", none)] }
      | _ => .error "Field required: name" }

/-- The schema exLibs validates "name: ex" into: name set, description
unset. -/
def exSchema : PydanticModel :=
  { fields := [("name", some (Json.str "ex")), ("description", none)] }

/-- An environment defining no variables at all. -/
def emptyEnv : String → Option String := fun _ => none

/-- A network serving the document "name: ex" with status 404 at every
URL. -/
def exNet404 : Network := fun _ => .response 404 "name: ex"

/-- A network serving "name: ex" only at the URL built from the
traversal name "../x", and failing at the transport level elsewhere. -/
def dotDotNet : Network := fun url =>
  if url = "https://raw.githubusercontent.com/lsst/sdm_schemas/main/yml/../x.yaml"
  then .response 200 "name: ex" else .requestError "dns"

/-- A network serving "name: ex" only at the URL built from the name
"ex", and failing at the transport level elsewhere. -/
def exOnlyNet : Network := fun url =>
  if url = schema_url "ex" then .response 200 "name: ex"
  else .requestError "dns"

/-! Claim C1. -/

/-- C1 counterexample: on the concrete network exNet the remote serves
the well-formed, schema-valid document "name: ex", and the handler does
return 200 — but the validated schema's unset optional field description
is serialized as null rather than omitted, because the /schema route does
not set response_model_exclude_none: the body equals the non-omitting
serialization and differs from the omitting one the claim requires. -/
theorem C1_counterexample :
    exSchema.fields = [("name", some (Json.str "ex")), ("description", none)] ∧
    (schema_route exLibs "ex" exNet).status_code = 200 ∧
    (schema_route exLibs "ex" exNet).body = jsonToString (serializeModel false exSchema) ∧
    (schema_route exLibs "ex" exNet).body ≠ jsonToString (serializeModel true exSchema) := by
  refine ⟨rfl, ?_, ?_, ?_⟩ <;>
    simp [schema_route, get_schema, exNet, exLibs, render, schema_route_exclude_none,
      schema_url, serializeModel, exSchema, jsonToString, jsonObjToString]

/-- C1 amended: when the remote document host is reachable and serves a
well-formed, schema-valid YAML document, GET /schema returns HTTP 200
with the validated structure serialized as JSON — but with unset fields
serialized as null rather than omitted, since the route leaves
response_model_exclude_none at its default False. -/
theorem C1_success_serializes_schema_with_nulls (libs : PyLibs) (name : String)
    (net : Network) (status : Nat) (text : String) (data : Json) (m : PydanticModel)
    (hnet : net (schema_url name) = .response status text)
    (hparse : libs.safe_load text = .ok data)
    (hvalid : libs.schema_of_data data = .ok m) :
    schema_route libs name net = ⟨200, jsonToString (serializeModel false m)⟩ := by
  simp [schema_route, get_schema, hnet, hparse, hvalid, render, schema_route_exclude_none]

/-- C1 witness: the amended success behavior at the concrete document
"name: ex". -/
theorem C1_witness :
    schema_route exLibs "ex" exNet = ⟨200, jsonToString (serializeModel false exSchema)⟩ :=
  C1_success_serializes_schema_with_nulls exLibs "ex" exNet 200 "name: ex"
    (Json.obj [("name", Json.str "ex")]) exSchema rfl (by simp [exLibs]) rfl

/-! Claim C2. -/

/-- C2 counterexample: on the concrete network downNet, where every GET
fails at the transport level, the /schema handler responds with status
404, not the 502 the claim states. -/
theorem C2_counterexample :
    (schema_route exLibs "ex" downNet).status_code = 404 ∧
    (schema_route exLibs "ex" downNet).status_code ≠ 502 := by
  constructor <;>
    simp [schema_route, get_schema, downNet, render]

/-- C2 amended: when the GET of the constructed schema URL fails at the
transport level, get_schema raises HTTPException with status 404 (not
502) and a detail message naming the attempted URL, and the response
carries that status. -/
theorem C2_transport_failure_is_404_naming_url (libs : PyLibs) (name : String)
    (net : Network) (msg : String)
    (h : net (schema_url name) = .requestError msg) :
    get_schema libs name net
      = .httpException 404 ("URL not found\n" ++ schema_url name) ∧
    (schema_route libs name net).status_code = 404 := by
  constructor <;> simp [schema_route, get_schema, h, render]

/-- C2 witness: the amended transport-failure behavior on downNet. -/
theorem C2_witness :
    get_schema exLibs "ex" downNet
      = .httpException 404 ("URL not found\n" ++ schema_url "ex") ∧
    (schema_route exLibs "ex" downNet).status_code = 404 :=
  C2_transport_failure_is_404_naming_url exLibs "ex" downNet "connection refused" rfl

/-! Claim C3. -/

/-- C3 counterexample: on the concrete network badYamlNet the remote
returns the unparseable text ":", and get_schema does not recover the
parse failure into a structured HTTPException at the handler boundary:
the yaml.YAMLError escapes the handler uncaught, and the 500 the caller
sees is the framework's plain default error page, not a handler-produced
structured response. -/
theorem C3_counterexample :
    get_schema exLibs "ex" badYamlNet
      = .uncaught ("yaml.YAMLError: " ++ "could not determine a constructor for the node") ∧
    schema_route exLibs "ex" badYamlNet = ⟨500, "Internal Server Error"⟩ := by
  constructor <;>
    simp [schema_route, get_schema, badYamlNet, exLibs, render]

/-- C3 amended: when the fetch succeeds at the transport level but the
body is not valid YAML, the yaml parse failure escapes get_schema as an
uncaught exception — it is not converted at the handler boundary — and
the caller receives the framework's default plain HTTP 500. -/
theorem C3_parse_failure_escapes_uncaught (libs : PyLibs) (name : String)
    (net : Network) (status : Nat) (text e : String)
    (hnet : net (schema_url name) = .response status text)
    (hparse : libs.safe_load text = .error e) :
    get_schema libs name net = .uncaught ("yaml.YAMLError: " ++ e) ∧
    schema_route libs name net = ⟨500, "Internal Server Error"⟩ := by
  constructor <;> simp [schema_route, get_schema, hnet, hparse, render]

/-- C3 witness: the amended parse-failure behavior at the concrete
unparseable body ":". -/
theorem C3_witness :
    get_schema exLibs "ex" badYamlNet
      = .uncaught ("yaml.YAMLError: " ++ "could not determine a constructor for the node") ∧
    schema_route exLibs "ex" badYamlNet = ⟨500, "Internal Server Error"⟩ :=
  C3_parse_failure_escapes_uncaught exLibs "ex" badYamlNet 200 ":"
    "could not determine a constructor for the node" rfl (by simp [exLibs])

/-! Claim C4. -/

/-- C4 counterexample: on the concrete network idNet the remote serves
"id: 3", valid YAML missing the required schema fields, and the handler
does not respond 422: the pydantic ValidationError escapes get_schema
uncaught and the caller receives the framework's default 500. -/
theorem C4_counterexample :
    get_schema exLibs "ex" idNet
      = .uncaught ("pydantic.ValidationError: " ++ "Field required: name") ∧
    (schema_route exLibs "ex" idNet).status_code = 500 ∧
    (schema_route exLibs "ex" idNet).status_code ≠ 422 := by
  refine ⟨?_, ?_, ?_⟩ <;>
    simp [schema_route, get_schema, idNet, exLibs, render]

/-- C4 amended: when the fetched body parses as YAML but schema
validation fails, the pydantic ValidationError raised by Schema(**data)
escapes get_schema as an uncaught exception, and the caller receives the
framework's default plain HTTP 500 rather than a 422 naming the fields. -/
theorem C4_validation_failure_escapes_uncaught (libs : PyLibs) (name : String)
    (net : Network) (status : Nat) (text e : String) (data : Json)
    (hnet : net (schema_url name) = .response status text)
    (hparse : libs.safe_load text = .ok data)
    (hvalid : libs.schema_of_data data = .error e) :
    get_schema libs name net = .uncaught ("pydantic.ValidationError: " ++ e) ∧
    schema_route libs name net = ⟨500, "Internal Server Error"⟩ := by
  constructor <;> simp [schema_route, get_schema, hnet, hparse, hvalid, render]

/-- C4 witness: the amended validation-failure behavior at the concrete
document "id: 3". -/
theorem C4_witness :
    get_schema exLibs "ex" idNet
      = .uncaught ("pydantic.ValidationError: " ++ "Field required: name") ∧
    schema_route exLibs "ex" idNet = ⟨500, "Internal Server Error"⟩ :=
  C4_validation_failure_escapes_uncaught exLibs "ex" idNet 200 "id: 3"
    "Field required: name" (Json.obj [("id", Json.num 3)]) rfl (by simp [exLibs]) rfl

/-! Claim C5. -/

/-- C5: for every string name — the empty string and traversal segments
included — the handler builds the remote URL by substituting name
unmodified into the fixed template, performs no validation (get_schema
depends on the network only through its answer at that one URL, rejecting
no name), and GETs exactly that URL. -/
theorem C5_url_substitution_unvalidated (name : String) (libs : PyLibs)
    (net1 net2 : Network)
    (h : net1 (schema_url name) = net2 (schema_url name)) :
    schema_url name
      = "https://raw.githubusercontent.com/lsst/sdm_schemas/main/yml/" ++ name ++ ".yaml" ∧
    get_schema libs name net1 = get_schema libs name net2 := by
  constructor
  · rfl
  · simp [get_schema, h]

/-- C5 witness: at the traversal name "../x", against two networks that
agree only at the substituted URL. -/
theorem C5_witness :
    schema_url "../x"
      = "https://raw.githubusercontent.com/lsst/sdm_schemas/main/yml/" ++ "../x" ++ ".yaml" ∧
    get_schema exLibs "../x" exNet = get_schema exLibs "../x" dotDotNet :=
  C5_url_substitution_unvalidated "../x" exLibs exNet dotDotNet (by decide)

/-! Claim C6. -/

/-- C6: the handler never inspects the remote HTTP status code before
parsing: two transport-successful responses with the same body but any
two different status codes lead get_schema through the same parse step to
the same outcome. -/
theorem C6_remote_status_code_ignored (libs : PyLibs) (name : String)
    (s1 s2 : Nat) (text : String) (net1 net2 : Network)
    (h1 : net1 (schema_url name) = .response s1 text)
    (h2 : net2 (schema_url name) = .response s2 text) :
    get_schema libs name net1 = get_schema libs name net2 := by
  simp [get_schema, h1, h2]

/-- C6 witness: a remote 200 and a remote 404 with the same body yield
the same outcome. -/
theorem C6_witness :
    get_schema exLibs "ex" exNet = get_schema exLibs "ex" exNet404 :=
  C6_remote_status_code_ignored exLibs "ex" 200 404 "name: ex" exNet exNet404 rfl rfl

/-! Claim C7. -/

/-- C7: the /schema route is deterministic in the fetched document: two
invocations whose networks return the identical result at the constructed
URL produce byte-for-byte identical response bodies (and identical
responses), the handler depending on no other state. -/
theorem C7_deterministic_in_fetched_document (libs : PyLibs) (name : String)
    (net1 net2 : Network)
    (h : net1 (schema_url name) = net2 (schema_url name)) :
    (schema_route libs name net1).body = (schema_route libs name net2).body ∧
    schema_route libs name net1 = schema_route libs name net2 := by
  have hg : get_schema libs name net1 = get_schema libs name net2 := by
    simp [get_schema, h]
  simp [schema_route, hg]

/-- C7 witness: two different networks serving the identical bytes at the
schema URL produce identical responses. -/
theorem C7_witness :
    (schema_route exLibs "ex" exNet).body = (schema_route exLibs "ex" exOnlyNet).body ∧
    schema_route exLibs "ex" exNet = schema_route exLibs "ex" exOnlyNet :=
  C7_deterministic_in_fetched_document exLibs "ex" exNet exOnlyNet (by decide)

/-! Claim C8. -/

/-- C8: every GET of the service root succeeds: get_index always returns
an Index whose metadata carries the configured application name, and the
response is HTTP 200 whose JSON body has the single field metadata with
name equal to the configured name and version, description,
repository_url and documentation_url all present as JSON strings. -/
theorem C8_index_returns_metadata (cfg : Config) (pkg : PackageInfo) :
    get_index cfg pkg = .ok { metadata := get_metadata cfg.name pkg } ∧
    (get_metadata cfg.name pkg).name = cfg.name ∧
    index_route cfg pkg
      = ⟨200, jsonToString (Json.obj [("metadata", Json.obj
          [("name", Json.str cfg.name),
           ("version", Json.str pkg.version),
           ("description", Json.str pkg.description),
           ("repository_url", Json.str pkg.repository_url),
           ("documentation_url", Json.str pkg.documentation_url)])])⟩ := by
  refine ⟨rfl, rfl, ?_⟩
  simp [index_route, get_index, indexJson, metadataModel, get_metadata,
    serializeModel, index_route_exclude_none]

/-! Claim C9. -/

/-- C9: the source holds two code paths for the same transport-level
failure reporting different statuses: the internal helper fetch_data
raises HTTPException with status 200 and an error payload, while the
externally-wired get_schema raises one with status 404; the carried
statuses differ. -/
theorem C9_two_paths_different_statuses (url : String) (netA netB : Network)
    (libs : PyLibs) (name msgA msgB : String)
    (hA : netA url = .requestError msgA)
    (hB : netB (schema_url name) = .requestError msgB) :
    fetch_data netA url = .httpException 200 ("URL not found\n" ++ url) ∧
    get_schema libs name netB
      = .httpException 404 ("URL not found\n" ++ schema_url name) ∧
    Outcome.exnStatus (fetch_data netA url)
      ≠ Outcome.exnStatus (get_schema libs name netB) := by
  refine ⟨?_, ?_, ?_⟩ <;>
    simp [fetch_data, get_schema, hA, hB, Outcome.exnStatus]

/-- C9 witness: both paths exercised on the unreachable network
downNet. -/
theorem C9_witness :
    fetch_data downNet (schema_url "ex")
      = .httpException 200 ("URL not found\n" ++ schema_url "ex") ∧
    get_schema exLibs "ex" downNet
      = .httpException 404 ("URL not found\n" ++ schema_url "ex") ∧
    Outcome.exnStatus (fetch_data downNet (schema_url "ex"))
      ≠ Outcome.exnStatus (get_schema exLibs "ex" downNet) :=
  C9_two_paths_different_statuses (schema_url "ex") downNet downNet exLibs "ex"
    "connection refused" "connection refused" rfl rfl

/-! Claim C10. -/

/-- C10 counterexample: with no environment variables set, the configured
URL path prefix is "/jeremym-fastapi-example", not the empty string the
claim states. -/
theorem C10_counterexample :
    Config.path_prefix (loadConfig emptyEnv) = "/jeremym-fastapi-example" ∧
    Config.path_prefix (loadConfig emptyEnv) ≠ "" := by
  constructor
  · rfl
  · decide

/-- C10 amended: when the environment supplies no path-prefix setting,
the URL path prefix under which the routes are mounted defaults to
"/jeremym-fastapi-example" (config.py lines 17-19), not to the empty
string. -/
theorem C10_default_path_is_app_slug (env : String → Option String)
    (h : env "JEREMYM_FASTAPI_EXAMPLE_PATH_PREFIX" = none) :
    Config.path_prefix (loadConfig env) = "/jeremym-fastapi-example" := by
  simp [loadConfig, h]

/-- C10 witness: the amended default at the empty environment. -/
theorem C10_witness :
    Config.path_prefix (loadConfig emptyEnv) = "/jeremym-fastapi-example" :=
  C10_default_path_is_app_slug emptyEnv rfl

end JeremymFastapiExample
